import Mathlib

/-!
# Verification of the 0g-kit request-orchestration core

A shallow embedding of the 0g-kit TypeScript sources (retry executor,
connection manager, provider selector, request orchestrator, ledger facade)
together with theorems settling the specification claims.

Conventions of the embedding:
* Fallible asynchronous operations become `Except`-valued Lean functions;
  an external collaborator (blockchain RPC, broker SDK, HTTP endpoint) is
  modelled as an environment record of such functions, indexed by attempt
  number where the code retries them.
* JavaScript `undefined`/`null` becomes `Option`; JS truthiness on strings
  (`!s`) is falsiness of `none`/`some ""`, and `a || b` on numbers treats
  `0` as falsy while `a ?? b` only replaces `none`.
* Thrown JS errors are `JSError`: one of the library's four `ZeroGError`
  subclasses, the fetch `AbortError`, or any other thrown value.
-/

namespace OGKit

/-- The four error kinds of `src/utils/errors.ts` (`ConfigurationError`,
`NetworkError`, `InsufficientFundsError`, `ValidationError`), carrying their
message. The optional wrapped cause is dropped: no claim inspects it. -/
inductive ZGError : Type
  | configuration (msg : String)
  | network (msg : String)
  | insufficientFunds (msg : String)
  | validation (msg : String)
deriving DecidableEq, Repr

/-- A value thrown by JS code: one of the library's error classes, the
`AbortError` produced by an aborted `fetch`, or any other thrown value
(matched by the `instanceof` checks in the catch blocks). -/
inductive JSError : Type
  | zg (e : ZGError)
  | abortError
  | other (msg : String)
deriving DecidableEq, Repr

/-! ## Retry executor (`src/utils/retry.ts`, the current variant)

```ts
export async function withRetry<T>(operation, maxRetries = 3, delay = 1000) {
  let lastError: Error;
  for (let attempt = 1; attempt <= maxRetries; attempt++) {
    try { return await operation(); }
    catch (error) {
      lastError = error as Error;
      if (attempt === maxRetries) { throw lastError; }
      const waitTime = delay * Math.pow(2, attempt - 1);
      await new Promise(resolve => setTimeout(resolve, waitTime));
    }
  }
  throw lastError!;
}
```

The operation is modelled as a function from the attempt number (starting
at 1, as in the source) to that invocation's outcome.  `withRetry` returns
the final outcome together with the number of invocations performed.  The
error side is `Option E`: `some e` is a thrown `lastError = e`, while
`none` is the degenerate `throw lastError!` with `lastError` never
assigned (only reachable when `maxRetries = 0`, where the loop body never
runs). The backoff sleep has no observable effect in this model. -/

/-- One pass of the `for` loop of `withRetry`: `fuel` is the number of loop
iterations still permitted (`maxRetries + 1 - attempt`). -/
def retryLoop {E A : Type} (op : Nat → Except E A) (maxRetries : Nat) :
    Nat → Nat → Option E → Except (Option E) A × Nat
  | 0, attempt, last => (.error last, attempt - 1)
  | fuel + 1, attempt, _last =>
    match op attempt with
    | .ok a => (.ok a, attempt)
    | .error e =>
      if attempt = maxRetries then (.error (some e), attempt)
      else retryLoop op maxRetries fuel (attempt + 1) (some e)

/-- `withRetry(operation, maxRetries)`: invoke `operation` up to
`maxRetries` times total, returning the first success or rethrowing the
last failure; the second component counts the invocations performed. -/
def withRetry {E A : Type} (op : Nat → Except E A) (maxRetries : Nat := 3) :
    Except (Option E) A × Nat :=
  retryLoop op maxRetries maxRetries 1 none

/-- If every invocation of the operation fails, the loop runs to the last
permitted attempt and rethrows that attempt's error. -/
theorem retryLoop_all_fail {E A : Type} (op : Nat → Except E A) (errs : Nat → E)
    (hop : ∀ i, op i = .error (errs i)) (maxRetries : Nat) :
    ∀ fuel attempt last, 1 ≤ fuel → attempt + fuel = maxRetries + 1 →
      retryLoop op maxRetries fuel attempt last =
        (.error (some (errs maxRetries)), maxRetries) := by
  intro fuel
  induction fuel with
  | zero => intro attempt last h1 _; omega
  | succ f ih =>
    intro attempt last _ hsum
    rw [retryLoop, hop attempt]
    by_cases hlast : attempt = maxRetries
    · subst hlast; simp
    · have hf : 1 ≤ f := by omega
      simp only [if_neg hlast]
      exact ih (attempt + 1) (some (errs attempt)) hf (by omega)

/-- `withRetry` on an operation that fails on every invocation performs
exactly `maxRetries` invocations and rethrows the final attempt's error. -/
theorem withRetry_all_fail {E A : Type} (op : Nat → Except E A) (errs : Nat → E)
    (hop : ∀ i, op i = .error (errs i)) (n : Nat) (h1 : 1 ≤ n) :
    withRetry op n = (.error (some (errs n)), n) := by
  unfold withRetry
  exact retryLoop_all_fail op errs hop n n 1 none h1 (by omega)

/-- If the first invocation succeeds, `withRetry` returns that success after
exactly one invocation. -/
theorem withRetry_first_ok {E A : Type} (op : Nat → Except E A) (a : A)
    (hop : op 1 = .ok a) (n : Nat) (h1 : 1 ≤ n) :
    withRetry op n = (.ok a, 1) := by
  unfold withRetry
  obtain ⟨m, rfl⟩ : ∃ m, n = m + 1 := ⟨n - 1, by omega⟩
  rw [retryLoop, hop]

/-! ## JavaScript-semantics helpers -/

/-- `listStarts needle hay`: `needle` is an initial segment of `hay`. -/
def listStarts : List Char → List Char → Bool
  | [], _ => true
  | _ :: _, [] => false
  | a :: as, b :: bs => a == b && listStarts as bs

/-- `listContains needle hay`: `needle` occurs contiguously in `hay`. -/
def listContains (needle : List Char) : List Char → Bool
  | [] => listStarts needle []
  | b :: bs => listStarts needle (b :: bs) || listContains needle bs

/-- JS `s.includes(sub)`: `sub` occurs as a contiguous substring of `s`. -/
def strIncludes (s sub : String) : Bool :=
  listContains sub.toList s.toList

/-- JS `s.toLowerCase()` (character-wise `Char.toLower`; the model names
and search names involved are ASCII). -/
def jsToLower (s : String) : String :=
  ⟨s.data.map Char.toLower⟩

theorem listStarts_refl (l : List Char) : listStarts l l = true := by
  induction l with
  | nil => rfl
  | cons a as ih => simp [listStarts, ih]

theorem listContains_append_right (a b : List Char) :
    listContains b (a ++ b) = true := by
  induction a with
  | nil =>
    cases b with
    | nil => rfl
    | cons x xs => simp [listContains, listStarts_refl]
  | cons x xs ih => simp [listContains, ih]

/-- A string always `includes` its own trailing part. -/
theorem strIncludes_append_right (p s : String) :
    strIncludes (p ++ s) s = true := by
  have h : (p ++ s).toList = p.toList ++ s.toList := rfl
  rw [strIncludes, h]
  exact listContains_append_right p.toList s.toList

/-- JS `a || b` on numbers: `0` (falsy) and `undefined` both fall back. -/
def jsOrNat (v : Option Nat) (d : Nat) : Nat :=
  match v with
  | some n => if n = 0 then d else n
  | none => d

/-- JS `a || b` on strings: `undefined`/`null` and `""` fall back. -/
def jsOrStr (v : Option String) (d : String) : String :=
  match v with
  | some s => if s = "" then d else s
  | none => d

/-- JS string falsiness: `undefined`, `null` and `""` are falsy. -/
def strFalsy : Option String → Bool
  | none => true
  | some s => s == ""

/-! ## Configuration (`src/types.ts` and the `ZeroGKit` constructor)

`ZeroGConfig` is the user-facing configuration; optional fields are
`Option`. The constructor of `ZeroGKit` (client source with `getInstance`)
spreads it over the defaults
`{ rpcUrl: "https://evmrpc-testnet.0g.ai", autoDeposit: true,
defaultModel: "llama-3.3-70b-instruct", timeout: 3000000, retries: 3 }`,
yielding a `Required<ZeroGConfig>`, here `ConfigR`.  `logLevel`,
`temperature` and `maxTokens` never influence any claimed behaviour and
are omitted. -/

structure ZeroGConfig where
  privateKey : String
  rpcUrl : Option String := none
  autoDeposit : Option Bool := none
  defaultModel : Option String := none
  timeout : Option Nat := none
  retries : Option Nat := none
deriving DecidableEq, Repr

/-- `Required<ZeroGConfig>` after the constructor filled the defaults. -/
structure ConfigR where
  privateKey : String
  rpcUrl : String
  autoDeposit : Bool
  defaultModel : String
  timeout : Nat
  retries : Nat
deriving DecidableEq, Repr

/-- The default-filling spread in the `ZeroGKit` constructor. -/
def fillDefaults (c : ZeroGConfig) : ConfigR :=
  { privateKey := c.privateKey
    rpcUrl := c.rpcUrl.getD "https://evmrpc-testnet.0g.ai"
    autoDeposit := c.autoDeposit.getD true
    defaultModel := c.defaultModel.getD "llama-3.3-70b-instruct"
    timeout := c.timeout.getD 3000000
    retries := c.retries.getD 3 }

/-- Per-call options of `chat`/`useDeepseek`/`useLlama`
(`ChatOptions` in `src/types.ts`), restricted to the claim-relevant
fields. -/
structure ChatOptions where
  model : Option String := none
  provider : Option String := none
  timeout : Option Nat := none
  retries : Option Nat := none
deriving DecidableEq, Repr

/-! ## Effective timeout / retry resolution (`src/core/inference.ts`)

`chat` (lines 72–75):
```ts
const sdkTimeout = (globalClient?.getConfig().timeout) ?? 30000;
const sdkRetries = (globalClient?.getConfig().retries) ?? 3;
const timeout = options.timeout ?? sdkTimeout;
const retries = options.retries ?? sdkRetries;
```
`useDeepseek`/`useLlama` resolve the timeout the same way (lines 257–258,
379–380) but pass `options.retries || 3` to each retried step (lines 245,
250, 255 and 365, 371, 377).  `globalClient` being `null` is the `none`
case of the `cfg` argument. -/

/-- Effective timeout of `chat`. -/
def codeEffTimeout (cfg : Option ConfigR) (opts : ChatOptions) : Nat :=
  opts.timeout.getD ((cfg.map fun c => c.timeout).getD 30000)

/-- Effective retry count of `chat`. -/
def codeEffRetries (cfg : Option ConfigR) (opts : ChatOptions) : Nat :=
  opts.retries.getD ((cfg.map fun c => c.retries).getD 3)

/-- Effective timeout of `useDeepseek` (same shape as `chat`). -/
def deepseekEffTimeout (cfg : Option ConfigR) (opts : ChatOptions) : Nat :=
  opts.timeout.getD ((cfg.map fun c => c.timeout).getD 30000)

/-- Effective timeout of `useLlama` (same shape as `chat`). -/
def llamaEffTimeout (cfg : Option ConfigR) (opts : ChatOptions) : Nat :=
  opts.timeout.getD ((cfg.map fun c => c.timeout).getD 30000)

/-- Retry count `useDeepseek` passes to its acknowledge/metadata/header
steps: `options.retries || 3`. -/
def deepseekStepRetries (opts : ChatOptions) : Nat :=
  jsOrNat opts.retries 3

/-- Retry count `useLlama` passes to its acknowledge/metadata/header
steps: `options.retries || 3`. -/
def llamaStepRetries (opts : ChatOptions) : Nat :=
  jsOrNat opts.retries 3

/-- The resolution rule as the specification words it (kept separate from
the source-derived definitions for refinement comparison): the explicit
per-call option if supplied, otherwise the connection-level configured
default, otherwise the hardcoded fallback. -/
def specResolve (optVal : Option Nat) (cfgVal : Option Nat) (fallback : Nat) : Nat :=
  optVal.getD (cfgVal.getD fallback)

/-! ## HTTP response model and per-caller response processing

The parsed JSON body `{choices:[{message:{content, tool_calls?,
reasoning_content?}}]}`; `data.choices?.[0]?.message?.content` is `none`
whenever the chain is broken.  A fetch `Response.ok` is `status` in
200–299. -/

/-- `choices[i].message` of the parsed body. A tool call's payload is
irrelevant (only `tool_calls.length` is ever read), hence `List Unit`. -/
structure RespMessage where
  content : Option String := none
  tool_calls : Option (List Unit) := none
  reasoning_content : Option String := none
deriving DecidableEq, Repr

/-- The parsed JSON body. -/
structure RespData where
  choices : List RespMessage := []
deriving DecidableEq, Repr

/-- `data.choices?.[0]?.message?.content`. -/
def contentOf (d : RespData) : Option String :=
  match d.choices with
  | [] => none
  | m :: _ => m.content

/-- `data.choices?.[0]?.message?.tool_calls`. -/
def toolCallsOf (d : RespData) : Option (List Unit) :=
  match d.choices with
  | [] => none
  | m :: _ => m.tool_calls

/-- `data.choices?.[0]?.message?.reasoning_content`. -/
def reasoningOf (d : RespData) : Option String :=
  match d.choices with
  | [] => none
  | m :: _ => m.reasoning_content

/-- fetch `Response.ok`: status in the inclusive range 200–299. -/
def statusOk (status : Nat) : Prop :=
  200 ≤ status ∧ status ≤ 299

instance (status : Nat) : Decidable (statusOk status) := by
  unfold statusOk; infer_instance

/-- The fixed apologetic fallback string of the model-specific helpers. -/
def noUsableContentMsg : String :=
  "I received your message but was unable to generate a response at this time."

/-- The tool-call stand-in string of the model-specific helpers. -/
def toolCallsMsg (n : Nat) : String :=
  "[Tool calls available: " ++ toString n ++ " tools]"

/-- `chat`'s handling of the HTTP response (status check lines 142–151,
content extraction lines 153–159): non-success 402/403 becomes
`InsufficientFundsError`, any other non-success a `NetworkError` carrying
the status; a falsy primary content is a hard `NetworkError`. -/
def chatProcessResponse (status : Nat) (data : RespData) : Except JSError String :=
  if ¬ statusOk status then
    if status = 402 ∨ status = 403 then
      .error (.zg (.insufficientFunds "Insufficient funds for AI inference request"))
    else
      .error (.zg (.network ("AI service error: HTTP " ++ toString status)))
  else
    let content := contentOf data
    if strFalsy content then
      .error (.zg (.network "Invalid response format from AI service"))
    else
      .ok (content.getD "")

/-- The shared soft-fallback chain of `useDeepseek`/`useLlama` when the
primary content is falsy or whitespace-only (`tool_calls` with positive
length, else truthy `reasoning_content`, else the fixed fallback). -/
def helperFallback (data : RespData) : String :=
  match toolCallsOf data with
  | some l =>
    if l.length > 0 then toolCallsMsg l.length
    else
      match reasoningOf data with
      | some r => if r = "" then noUsableContentMsg else r
      | none => noUsableContentMsg
  | none =>
    match reasoningOf data with
    | some r => if r = "" then noUsableContentMsg else r
    | none => noUsableContentMsg

/-- `useDeepseek`'s handling of the HTTP response (lines 282–313). -/
def deepseekProcessResponse (status : Nat) (data : RespData) : Except JSError String :=
  if ¬ statusOk status then
    if status = 402 ∨ status = 403 then
      .error (.zg (.insufficientFunds "Insufficient funds for DeepSeek inference request"))
    else
      .error (.zg (.network ("DeepSeek service error: HTTP " ++ toString status)))
  else
    let content := contentOf data
    if strFalsy content || (content.getD "").trim == "" then
      .ok (helperFallback data)
    else
      .ok (content.getD "")

/-- `useLlama`'s handling of the HTTP response (lines 404–436). -/
def llamaProcessResponse (status : Nat) (data : RespData) : Except JSError String :=
  if ¬ statusOk status then
    if status = 402 ∨ status = 403 then
      .error (.zg (.insufficientFunds "Insufficient funds for Llama inference request"))
    else
      .error (.zg (.network ("Llama service error: HTTP " ++ toString status)))
  else
    let content := contentOf data
    if strFalsy content || (content.getD "").trim == "" then
      .ok (helperFallback data)
    else
      .ok (content.getD "")

/-! ## Connection manager (`ZeroGKit` with `getInstance`, client source)

The persisted state file is a JSON object keyed by wallet address; its
values are `WalletState`.  The process-wide registry
`ZeroGKit.instances : Map<string, ZeroGKit>` is a list of
address/instance pairs.  Wall-clock timestamps (`new Date().toISOString()`)
are passed in as opaque strings.

`getInstance` derives the memoization key via
`new ethers.Wallet(config.privateKey, provider).address`; an Ethereum
wallet address is a function of the private key alone (the `provider`
argument only attaches connectivity), so the derivation is modelled as an
arbitrary function `deriveAddress` of the private key. -/

/-- One per-identity record of the persisted state file
(`{autoDepositCompleted, lastUsed, createdAt, rpcUrl, totalRequests}`);
the defaults are the fallback object of `getWalletState`. -/
structure WalletState where
  autoDepositCompleted : Bool := false
  lastUsed : Option String := none
  createdAt : Option String := none
  rpcUrl : Option String := none
  totalRequests : Nat := 0
deriving DecidableEq, Repr

/-- Read an association list, `none` when the key is absent. -/
def findEntry {α : Type} : List (String × α) → String → Option α
  | [], _ => none
  | (k', v) :: t, k => if k' = k then some v else findEntry t k

/-- `state[key] = value`: replace an existing binding or append a new one. -/
def setEntry {α : Type} : List (String × α) → String → α → List (String × α)
  | [], k, v => [(k, v)]
  | (k', v') :: t, k, v => if k' = k then (k, v) :: t else (k', v') :: setEntry t k v

/-- `ZeroGKit.getWalletState`: the persisted record for an address, or the
all-default record when none exists. -/
def getWalletState (persisted : List (String × WalletState)) (addr : String) :
    WalletState :=
  match findEntry persisted addr with
  | some ws => ws
  | none => {}

/-- `ZeroGKit.setWalletState`: store the record, stamping `lastUsed` with
the current time. -/
def setWalletState (now : String) (persisted : List (String × WalletState))
    (addr : String) (ws : WalletState) : List (String × WalletState) :=
  setEntry persisted addr { ws with lastUsed := some now }

theorem findEntry_setEntry_self {α : Type} (l : List (String × α)) (k : String) (v : α) :
    findEntry (setEntry l k v) k = some v := by
  induction l with
  | nil => simp [setEntry, findEntry]
  | cons p t ih =>
    obtain ⟨k', v'⟩ := p
    by_cases h : k' = k
    · simp [setEntry, h, findEntry]
    · simp [setEntry, h, findEntry, ih]

theorem getWalletState_setWalletState_self (now : String)
    (persisted : List (String × WalletState)) (addr : String) (ws : WalletState) :
    getWalletState (setWalletState now persisted addr ws) addr =
      { ws with lastUsed := some now } := by
  simp [getWalletState, setWalletState, findEntry_setEntry_self]

/-- An entry of the process-wide registry: the fields of a `ZeroGKit`
object fixed at construction time.  `id` stands for JS object identity
(the registry never constructs two instances with the same `id`). -/
structure KitInstance where
  id : Nat
  config : ConfigR
  autoDepositCompleted : Bool
  walletAddress : String
deriving DecidableEq, Repr

/-- The process-wide mutable state behind `ZeroGKit.getInstance`: the
instance registry, the persisted state file, and the next fresh object
identity. -/
structure KitRegistry where
  instances : List (String × KitInstance) := []
  persisted : List (String × WalletState) := []
  nextId : Nat := 0
deriving DecidableEq, Repr

/-- `ZeroGKit.getInstance(config)` (client source lines 203–223): derive
the wallet address from the private key; if no registry entry exists,
construct an instance (restoring the persisted activation flag), update
the persisted record (`rpcUrl`, `createdAt || now`, `lastUsed`), and
register the instance; then return the registry entry. -/
def getInstance (deriveAddress : String → String) (now : String)
    (st : KitRegistry) (config : ZeroGConfig) : KitInstance × KitRegistry :=
  let walletAddress := deriveAddress config.privateKey
  match findEntry st.instances walletAddress with
  | some inst => (inst, st)
  | none =>
    let walletState := getWalletState st.persisted walletAddress
    let inst : KitInstance :=
      { id := st.nextId
        config := fillDefaults config
        autoDepositCompleted := walletState.autoDepositCompleted
        walletAddress := walletAddress }
    let persisted' := setWalletState now st.persisted walletAddress
      { walletState with
        rpcUrl := config.rpcUrl
        createdAt := some (jsOrStr walletState.createdAt now) }
    (inst,
     { instances := setEntry st.instances walletAddress inst
       persisted := persisted'
       nextId := st.nextId + 1 })

/-! ## `ZeroGKit._doInit` (client source lines 342–381)

External steps as an environment: the retried `provider.getNetwork()`
health check, the retried `createZGComputeNetworkBroker` factory, and the
activation deposit `broker.ledger.addLedger(0.05)` (invoked at most once,
no retry). -/

structure DoInitEnv where
  getNetwork : Nat → Except String Unit
  createBroker : Nat → Except String Unit
  addLedger : Except String Unit

/-- Observable outcome of a successful `_doInit` run: the in-memory
activation flag, the persisted state file afterwards, and whether the
activation deposit call was made. -/
structure DoInitOut where
  autoDepositCompleted : Bool
  persisted : List (String × WalletState)
  depositAttempted : Bool
deriving DecidableEq, Repr

/-- `_doInit`: retried health check, wallet construction, retried broker
factory; then, if `autoDeposit` is on and activation has not completed,
one activation-deposit call whose success flips and persists the flag and
whose failure is logged and swallowed.  Any failure of the first three
steps is wrapped into a single `NetworkError`. -/
def doInit (cfg : ConfigR) (walletAddress : String) (autoDepositCompleted : Bool)
    (persisted : List (String × WalletState)) (now : String) (env : DoInitEnv) :
    Except ZGError DoInitOut :=
  match (withRetry env.getNetwork cfg.retries).1 with
  | .error _ => .error (.network "Failed to initialize 0G connection")
  | .ok _ =>
    match (withRetry env.createBroker cfg.retries).1 with
    | .error _ => .error (.network "Failed to initialize 0G connection")
    | .ok _ =>
      if cfg.autoDeposit && !autoDepositCompleted then
        match env.addLedger with
        | .ok _ =>
          let ws := getWalletState persisted walletAddress
          .ok { autoDepositCompleted := true
                persisted := setWalletState now persisted walletAddress
                  { ws with autoDepositCompleted := true
                            totalRequests := ws.totalRequests + 1 }
                depositAttempted := true }
        | .error _ =>
          .ok { autoDepositCompleted := autoDepositCompleted
                persisted := persisted
                depositAttempted := true }
      else
        .ok { autoDepositCompleted := autoDepositCompleted
              persisted := persisted
              depositAttempted := false }

/-! ## Provider selection and the request orchestrator
(`src/core/inference.ts`) -/

/-- One entry of `broker.inference.listService()`: the code tolerates both
a tuple/array shape (address first) and a bare address, via
`Array.isArray(service) ? service[0] : service`. -/
inductive ServiceEntry : Type
  | arrEntry (addr : String) (rest : List String)
  | strEntry (addr : String)
deriving DecidableEq, Repr

/-- `Array.isArray(service) ? service[0] : service`. -/
def addressOf : ServiceEntry → String
  | .arrEntry a _ => a
  | .strEntry s => s

/-- `broker.inference.getServiceMetadata` result `{endpoint, model}`. -/
structure ServiceMeta where
  endpoint : String
  model : String
deriving DecidableEq, Repr

/-- Outcome of the `fetch` round trip: a response with a status and parsed
body, a rejection with `AbortError` (the cancellation signal fired), or a
rejection with any other error. -/
inductive HttpOutcome : Type
  | ok (status : Nat) (data : RespData)
  | abort
  | netFail (msg : String)
deriving DecidableEq, Repr

/-- Timer-related events of the HTTP phase, in program order:
`setT` = `setTimeout(...)`, `abortFired` = the timer fired and called
`controller.abort()`, `clearT` = `clearTimeout(timeoutId)`. -/
inductive TEv : Type
  | setT
  | abortFired
  | clearT
deriving DecidableEq, Repr

/-- The HTTP phase of `chat` (lines 120–174): arm the timeout timer, issue
the fetch, and process the response; `clearTimeout` runs right after a
response arrives (line 140) and again in the `finally` block (line 173),
so it is on every exit path. On `abort` the timer fired first. -/
def chatHttpPhase (outcome : HttpOutcome) : Except JSError String × List TEv :=
  match outcome with
  | .ok status data => (chatProcessResponse status data, [TEv.setT, TEv.clearT, TEv.clearT])
  | .abort => (.error .abortError, [TEv.setT, TEv.abortFired, TEv.clearT])
  | .netFail m => (.error (.other m), [TEv.setT, TEv.clearT])

/-- The HTTP phase of `useDeepseek` (lines 259–327), same timer discipline. -/
def deepseekHttpPhase (outcome : HttpOutcome) : Except JSError String × List TEv :=
  match outcome with
  | .ok status data => (deepseekProcessResponse status data, [TEv.setT, TEv.clearT, TEv.clearT])
  | .abort => (.error .abortError, [TEv.setT, TEv.abortFired, TEv.clearT])
  | .netFail m => (.error (.other m), [TEv.setT, TEv.clearT])

/-- The HTTP phase of `useLlama` (lines 381–450), same timer discipline. -/
def llamaHttpPhase (outcome : HttpOutcome) : Except JSError String × List TEv :=
  match outcome with
  | .ok status data => (llamaProcessResponse status data, [TEv.setT, TEv.clearT, TEv.clearT])
  | .abort => (.error .abortError, [TEv.setT, TEv.abortFired, TEv.clearT])
  | .netFail m => (.error (.other m), [TEv.setT, TEv.clearT])

/-- `withRetry`'s error side folded back into a thrown JS value: `none`
(the never-assigned `lastError!`) is throwing `undefined`. -/
def retryErr : Option JSError → JSError
  | some e => e
  | none => .other "undefined"

/-- The catch block of `chat` (lines 176–189): `AbortError` becomes the
timeout `NetworkError`; the three exported error classes are rethrown
unchanged; everything else (including `ValidationError`, which the
`instanceof` chain does not list) is wrapped. -/
def chatCatch (timeout : Nat) : JSError → ZGError
  | .abortError => .network ("Request timed out after " ++ toString timeout ++ "ms")
  | .zg (.configuration m) => .configuration m
  | .zg (.network m) => .network m
  | .zg (.insufficientFunds m) => .insufficientFunds m
  | .zg (.validation _) => .network "Unexpected error during chat request"
  | .other _ => .network "Unexpected error during chat request"

/-- The catch block of `useDeepseek` (lines 329–342); note its timeout
message uses `options.timeout || 30000`, not the effective timeout. -/
def deepseekCatch (opts : ChatOptions) : JSError → ZGError
  | .abortError =>
    .network ("DeepSeek request timed out after " ++ toString (jsOrNat opts.timeout 30000) ++ "ms")
  | .zg (.configuration m) => .configuration m
  | .zg (.network m) => .network m
  | .zg (.insufficientFunds m) => .insufficientFunds m
  | .zg (.validation _) => .network "Unexpected error during DeepSeek request"
  | .other _ => .network "Unexpected error during DeepSeek request"

/-- The catch block of `useLlama` (lines 452–465). -/
def llamaCatch (opts : ChatOptions) : JSError → ZGError
  | .abortError =>
    .network ("Llama request timed out after " ++ toString (jsOrNat opts.timeout 30000) ++ "ms")
  | .zg (.configuration m) => .configuration m
  | .zg (.network m) => .network m
  | .zg (.insufficientFunds m) => .insufficientFunds m
  | .zg (.validation _) => .network "Unexpected error during Llama request"
  | .other _ => .network "Unexpected error during Llama request"

/-- Recognizes the timeout-class `NetworkError` messages produced by the
three catch blocks ("Request timed out after …", "DeepSeek request timed
out after …", "Llama request timed out after …"); no other failure
produced by the orchestrator matches any of these prefixes. -/
def isTimeoutFailure : ZGError → Bool
  | .network m =>
    listStarts "Request timed out after".toList m.toList ||
    listStarts "DeepSeek request timed out after".toList m.toList ||
    listStarts "Llama request timed out after".toList m.toList
  | _ => false

/-- Modelled from the spec: `src/utils/validation.ts`
(`validateChatMessage`) is not among the sources; §4.4 step 1 specifies
that an empty message is rejected as a validation failure before any
network step. -/
def validateChatMessage (message : String) : Except JSError Unit :=
  if message = "" then
    .error (.zg (.validation "Message must be a non-empty string"))
  else
    .ok ()

/-- External collaborators of one `chat` call, attempt-indexed where the
code wraps the step in `withRetry`. -/
structure ChatEnv where
  listService : Nat → Option (List ServiceEntry)
  acknowledge : String → Nat → Except JSError Unit
  getMetadata : String → Nat → Except JSError ServiceMeta
  getRequestHeaders : String → String → Nat → Except JSError Unit
  http : HttpOutcome

/-- Which broker/httpsteps one `chat` call performed: invocation counts of
the retried steps, whether the HTTP call was issued, and the timer events
of the HTTP phase. -/
structure ChatTrace where
  listCalls : Nat := 0
  ackCalls : Nat := 0
  metadataCalls : Nat := 0
  headerCalls : Nat := 0
  httpCalled : Bool := false
  timerEvents : List TEv := []
deriving DecidableEq, Repr

/-- The retried service-discovery step of `chat`/`findModelProvider`
(inference lines 89–99, 196–206): a missing or empty `listService` result
is thrown as `NetworkError('No AI inference services available')`. -/
def svcFetchOp (listService : Nat → Option (List ServiceEntry)) (i : Nat) :
    Except JSError (List ServiceEntry) :=
  match listService i with
  | none => .error (.zg (.network "No AI inference services available"))
  | some l =>
    if l.length = 0 then .error (.zg (.network "No AI inference services available"))
    else .ok l

/-- `chat(message, options)` (inference lines 68–190): resolve effective
timeout/retries, validate, discover services (retried), select the
provider (`options.provider || services[0]`, array shape normalized),
acknowledge it (retried), fetch metadata (retried), fetch per-request
headers (retried), run the HTTP phase, and map escaped errors through the
catch block. Returns the result and the call trace. -/
def chatRun (cfg : Option ConfigR) (env : ChatEnv) (message : String)
    (opts : ChatOptions) : Except ZGError String × ChatTrace :=
  let timeout := codeEffTimeout cfg opts
  let retries := codeEffRetries cfg opts
  match validateChatMessage message with
  | .error e => (.error (chatCatch timeout e), {})
  | .ok _ =>
    match withRetry (svcFetchOp env.listService) retries with
    | (.error e, nList) =>
      (.error (chatCatch timeout (retryErr e)), { listCalls := nList })
    | (.ok services, nList) =>
      let providerAddress :=
        match opts.provider with
        | some p =>
          if p = "" then addressOf (services.headD (ServiceEntry.strEntry "")) else p
        | none => addressOf (services.headD (ServiceEntry.strEntry ""))
      match withRetry (env.acknowledge providerAddress) retries with
      | (.error e, nAck) =>
        (.error (chatCatch timeout (retryErr e)),
         { listCalls := nList, ackCalls := nAck })
      | (.ok _, nAck) =>
        match withRetry (env.getMetadata providerAddress) retries with
        | (.error e, nMd) =>
          (.error (chatCatch timeout (retryErr e)),
           { listCalls := nList, ackCalls := nAck, metadataCalls := nMd })
        | (.ok _, nMd) =>
          match withRetry (env.getRequestHeaders providerAddress message) retries with
          | (.error e, nHd) =>
            (.error (chatCatch timeout (retryErr e)),
             { listCalls := nList, ackCalls := nAck, metadataCalls := nMd,
               headerCalls := nHd })
          | (.ok _, nHd) =>
            let phase := chatHttpPhase env.http
            ((match phase.1 with
              | .ok s => .ok s
              | .error e => .error (chatCatch timeout e)),
             { listCalls := nList, ackCalls := nAck, metadataCalls := nMd,
               headerCalls := nHd, httpCalled := true, timerEvents := phase.2 })

/-- External collaborators of `findModelProvider`: the attempt-indexed
service discovery and the per-address metadata fetch (not retried). -/
structure FindEnv where
  listService : Nat → Option (List ServiceEntry)
  metaByAddr : String → Except JSError ServiceMeta

/-- The scan loop of `findModelProvider` (inference lines 208–222): in
list order, fetch each candidate's metadata — a fetch failure skips the
candidate — and return the first address whose model name contains the
requested name case-insensitively; exhaustion throws the no-provider
`NetworkError`. -/
def findScan (env : FindEnv) (modelName : String) :
    List ServiceEntry → Except JSError String
  | [] => .error (.zg (.network ("No provider found for model: " ++ modelName)))
  | s :: rest =>
    let providerAddress := addressOf s
    match env.metaByAddr providerAddress with
    | .error _ => findScan env modelName rest
    | .ok md =>
      if strIncludes (jsToLower md.model) (jsToLower modelName) then .ok providerAddress
      else findScan env modelName rest

/-- `findModelProvider(modelName)` (inference lines 192–223): retried
service discovery (retry count `config.retries ?? 3`), then the scan.
Errors propagate unwrapped to the caller. -/
def findModelProvider (cfg : Option ConfigR) (env : FindEnv) (modelName : String) :
    Except JSError String :=
  let retries := (cfg.map fun c => c.retries).getD 3
  match (withRetry (svcFetchOp env.listService) retries).1 with
  | .error e => .error (retryErr e)
  | .ok services => findScan env modelName services

/-- `findScan` ignores a leading block of candidates it skips (metadata
failure or case-insensitive non-match). -/
def scanSkips (env : FindEnv) (modelName : String) (t : ServiceEntry) : Bool :=
  match env.metaByAddr (addressOf t) with
  | .error _ => true
  | .ok md => !(strIncludes (jsToLower md.model) (jsToLower modelName))

theorem findScan_skip_block (env : FindEnv) (modelName : String)
    (pre rest : List ServiceEntry)
    (hpre : ∀ t ∈ pre, scanSkips env modelName t = true) :
    findScan env modelName (pre ++ rest) = findScan env modelName rest := by
  induction pre with
  | nil => rfl
  | cons s t ih =>
    have hs := hpre s (by simp)
    have ht : ∀ u ∈ t, scanSkips env modelName u = true := by
      intro u hu; exact hpre u (by simp [hu])
    rw [List.cons_append, findScan]
    unfold scanSkips at hs
    revert hs
    match henv : env.metaByAddr (addressOf s) with
    | .error e => intro _; exact ih ht
    | .ok md =>
      intro hs
      simp only [Bool.not_eq_true'] at hs
      simp only [hs, if_false]
      exact ih ht

/-! ## Ledger facade (`src/core/client.ts`, current named source)

`getBalance`/`getLockedBalance`/`getAvailableBalance` acquire the broker
(running `init()` if needed), read the ledger, and convert a raw balance
with `ethers.formatEther`; any failure — including an initialization
failure — is re-signalled as `NetworkError('Failed to retrieve
balance')`.  `formatEther` is an external pure conversion, passed in as a
function of the raw integer balance. -/

/-- `broker.ledger.getLedger()` result. -/
structure Ledger where
  totalBalance : Nat
  locked : Nat
deriving DecidableEq, Repr

/-- External collaborators of the balance getters: whether
`getBroker()`/`init()` succeeds, and the ledger query's outcome. -/
structure LedgerEnv where
  brokerOk : Bool
  ledger : Except String Ledger

/-- `ZeroGKit.getBalance` (client lines 102–114):
`formatEther(account.totalBalance)`. -/
def getBalance (formatEther : Nat → String) (env : LedgerEnv) :
    Except ZGError String :=
  if env.brokerOk then
    match env.ledger with
    | .ok account => .ok (formatEther account.totalBalance)
    | .error _ => .error (.network "Failed to retrieve balance")
  else .error (.network "Failed to retrieve balance")

/-- `ZeroGKit.getLockedBalance` (client lines 116–128):
`formatEther(account.locked)`. -/
def getLockedBalance (formatEther : Nat → String) (env : LedgerEnv) :
    Except ZGError String :=
  if env.brokerOk then
    match env.ledger with
    | .ok account => .ok (formatEther account.locked)
    | .error _ => .error (.network "Failed to retrieve balance")
  else .error (.network "Failed to retrieve balance")

/-- `ZeroGKit.getAvailableBalance` (client lines 130–142): despite the
local variable's name, it formats `account.totalBalance`. -/
def getAvailableBalance (formatEther : Nat → String) (env : LedgerEnv) :
    Except ZGError String :=
  if env.brokerOk then
    match env.ledger with
    | .ok account => .ok (formatEther account.totalBalance)
    | .error _ => .error (.network "Failed to retrieve balance")
  else .error (.network "Failed to retrieve balance")

/-! ## Claim theorems -/

/-- C1: for every `maxAttempts ≥ 1` and every operation that fails on
every invocation, `withRetry(operation, maxAttempts)` invokes the
operation exactly `maxAttempts` times (total attempt budget) and then
rethrows exactly the failure observed on the final attempt, unchanged —
it neither swallows it nor synthesizes a new error. -/
theorem withRetry_exhausts_with_last_failure {E A : Type}
    (op : Nat → Except E A) (errs : Nat → E) (maxAttempts : Nat)
    (h1 : 1 ≤ maxAttempts) (hop : ∀ i, op i = .error (errs i)) :
    withRetry op maxAttempts = (.error (some (errs maxAttempts)), maxAttempts) :=
  withRetry_all_fail op errs hop maxAttempts h1

/-- C1 witness: an operation failing with error `i` on its `i`-th
invocation, run with a total budget of 3 attempts, is invoked exactly 3
times and the surfaced failure is attempt 3's error. -/
theorem withRetry_exhausts_with_last_failure_witness :
    1 ≤ 3 ∧
    withRetry (fun i => (Except.error i : Except Nat Unit)) 3 = (.error (some 3), 3) :=
  ⟨by decide,
   withRetry_exhausts_with_last_failure (fun i => (Except.error i : Except Nat Unit))
     (fun i => i) 3 (by decide) (fun _ => rfl)⟩

/-- C10: `getAvailableBalance()` returns exactly what `getBalance()`
returns in every environment: both convert the ledger's `totalBalance`
field with `formatEther`, so the locked portion is never subtracted from
the reported available balance. -/
theorem getAvailableBalance_eq_getBalance (formatEther : Nat → String)
    (env : LedgerEnv) :
    getAvailableBalance formatEther env = getBalance formatEther env ∧
    (∀ account : Ledger, env.brokerOk = true → env.ledger = .ok account →
      getAvailableBalance formatEther env = .ok (formatEther account.totalBalance)) ∧
    (∀ total lockedA lockedB : Nat,
      getAvailableBalance formatEther ⟨true, .ok ⟨total, lockedA⟩⟩ =
        getAvailableBalance formatEther ⟨true, .ok ⟨total, lockedB⟩⟩) := by
  refine ⟨rfl, ?_, ?_⟩
  · intro account hb hl
    simp [getAvailableBalance, hb, hl]
  · intro total lockedA lockedB
    simp [getAvailableBalance]

/-- C10 witness: with the identity conversion and a ledger of total
balance 7 and locked balance 5, both getters report the total balance
regardless of the locked amount. -/
theorem getAvailableBalance_eq_getBalance_witness :
    getAvailableBalance (fun n => toString n) ⟨true, .ok ⟨7, 5⟩⟩ =
      getBalance (fun n => toString n) ⟨true, .ok ⟨7, 5⟩⟩ ∧
    getAvailableBalance (fun n => toString n) ⟨true, .ok ⟨7, 5⟩⟩ = .ok "7" :=
  ⟨(getAvailableBalance_eq_getBalance (fun n => toString n) ⟨true, .ok ⟨7, 5⟩⟩).1,
   (getAvailableBalance_eq_getBalance (fun n => toString n) ⟨true, .ok ⟨7, 5⟩⟩).2.1
     ⟨7, 5⟩ rfl rfl⟩

/-- C2 counterexample: two `getInstance` calls whose configurations share
the private key but name different RPC endpoints return the *same*
connection object, contradicting the claim that they yield distinct
connections (the registry key is the wallet address, a function of the
private key alone). -/
theorem getInstance_same_key_different_rpc_cex :
    ((getInstance (fun k => "addr:" ++ k) "t1"
        (getInstance (fun k => "addr:" ++ k) "t0" {}
          { privateKey := "k1", rpcUrl := some "https://rpc-a" }).2
        { privateKey := "k1", rpcUrl := some "https://rpc-b" }).1
      = (getInstance (fun k => "addr:" ++ k) "t0" {}
          { privateKey := "k1", rpcUrl := some "https://rpc-a" }).1) ∧
    ("https://rpc-a" : String) ≠ "https://rpc-b" := by
  exact ⟨rfl, by decide⟩

/-- C2 amended: connections are memoized one per derived wallet address,
a function of the private key alone: starting from a fresh registry, a
second `getInstance` call returns the same connection object as the first
exactly when the two private keys derive the same wallet address — the
RPC endpoint plays no part in the registry key. -/
theorem getInstance_memoized_by_wallet_address (deriveAddress : String → String)
    (t0 t1 : String) (c1 c2 : ZeroGConfig) :
    (getInstance deriveAddress t1 (getInstance deriveAddress t0 {} c1).2 c2).1 =
        (getInstance deriveAddress t0 {} c1).1 ↔
      deriveAddress c2.privateKey = deriveAddress c1.privateKey := by
  by_cases h : deriveAddress c2.privateKey = deriveAddress c1.privateKey
  · simp only [h, iff_true]
    simp [getInstance, findEntry, setEntry, h]
  · simp only [h, iff_false]
    have h' : ¬ deriveAddress c1.privateKey = deriveAddress c2.privateKey :=
      fun he => h he.symm
    simp [getInstance, findEntry, setEntry, h', KitInstance.mk.injEq]

/-- C2 amended witness: with address derivation prepending "addr:", the
same private key under two different RPC endpoints maps to the same
connection, while a different private key does not. -/
theorem getInstance_memoized_by_wallet_address_witness :
    ((getInstance (fun k => "addr:" ++ k) "t1"
        (getInstance (fun k => "addr:" ++ k) "t0" {}
          { privateKey := "k1", rpcUrl := some "https://rpc-a" }).2
        { privateKey := "k1", rpcUrl := some "https://rpc-b" }).1
      = (getInstance (fun k => "addr:" ++ k) "t0" {}
          { privateKey := "k1", rpcUrl := some "https://rpc-a" }).1) ∧
    ¬ ((getInstance (fun k => "addr:" ++ k) "t1"
        (getInstance (fun k => "addr:" ++ k) "t0" {}
          { privateKey := "k1", rpcUrl := some "https://rpc-a" }).2
        { privateKey := "k2", rpcUrl := some "https://rpc-a" }).1
      = (getInstance (fun k => "addr:" ++ k) "t0" {}
          { privateKey := "k1", rpcUrl := some "https://rpc-a" }).1) :=
  ⟨(getInstance_memoized_by_wallet_address (fun k => "addr:" ++ k) "t0" "t1"
      { privateKey := "k1", rpcUrl := some "https://rpc-a" }
      { privateKey := "k1", rpcUrl := some "https://rpc-b" }).mpr (by decide),
   fun h =>
    by exact absurd ((getInstance_memoized_by_wallet_address (fun k => "addr:" ++ k)
      "t0" "t1"
      { privateKey := "k1", rpcUrl := some "https://rpc-a" }
      { privateKey := "k2", rpcUrl := some "https://rpc-a" }).mp h) (by decide)⟩

/-- C3: for an identity with `autoDeposit` enabled — (a) when the
persisted activation record already shows `autoDepositCompleted = true`
at connection creation, the restored in-memory flag is set and `_doInit`
performs no activation deposit; (b) on a successful first activation the
flag is set and persisted in the same step; (c) a failure of the
activation deposit itself is swallowed: `_doInit` still completes
successfully, flag and persisted record unchanged. -/
theorem autoDeposit_once_persisted_and_swallowed
    (deriveAddress : String → String) (t0 t1 : String) (cfg : ZeroGConfig)
    (persisted0 : List (String × WalletState)) (env : DoInitEnv)
    (hauto : (fillDefaults cfg).autoDeposit = true)
    (hnet : (withRetry env.getNetwork (fillDefaults cfg).retries).1 = .ok ())
    (hbrk : (withRetry env.createBroker (fillDefaults cfg).retries).1 = .ok ()) :
    let addr := deriveAddress cfg.privateKey
    let r := getInstance deriveAddress t0 { persisted := persisted0 } cfg
    ((getWalletState persisted0 addr).autoDepositCompleted = true →
      r.1.autoDepositCompleted = true ∧
      doInit r.1.config addr r.1.autoDepositCompleted r.2.persisted t1 env =
        .ok { autoDepositCompleted := true
              persisted := r.2.persisted
              depositAttempted := false }) ∧
    (r.1.autoDepositCompleted = false → env.addLedger = .ok () →
      ∃ out, doInit r.1.config addr r.1.autoDepositCompleted r.2.persisted t1 env =
          .ok out ∧
        out.depositAttempted = true ∧
        out.autoDepositCompleted = true ∧
        (getWalletState out.persisted addr).autoDepositCompleted = true) ∧
    (∀ emsg, r.1.autoDepositCompleted = false → env.addLedger = .error emsg →
      doInit r.1.config addr r.1.autoDepositCompleted r.2.persisted t1 env =
        .ok { autoDepositCompleted := false
              persisted := r.2.persisted
              depositAttempted := true }) := by
  intro addr r
  have hr1 : r.1.config = fillDefaults cfg ∧
      r.1.autoDepositCompleted = (getWalletState persisted0 addr).autoDepositCompleted := by
    constructor <;> simp [r, getInstance, findEntry]
  refine ⟨?_, ?_, ?_⟩
  · intro hflag
    have h1 : r.1.autoDepositCompleted = true := hr1.2.trans hflag
    refine ⟨h1, ?_⟩
    rw [doInit, hr1.1, hnet, hbrk, h1, hauto]
    simp
  · intro hflag hdep
    rw [doInit, hr1.1, hnet, hbrk, hflag, hauto, hdep]
    simp only [Bool.not_false, Bool.and_self, if_true]
    refine ⟨_, rfl, rfl, rfl, ?_⟩
    rw [getWalletState_setWalletState_self]
  · intro emsg hflag hdep
    rw [doInit, hr1.1, hnet, hbrk, hflag, hauto, hdep]
    simp

/-- C3 witness: a fresh identity with all-successful network steps — the
first activation succeeds, is persisted, and a rerun from the persisted
record performs no further deposit; and with a failing deposit, `_doInit`
still completes. -/
theorem autoDeposit_once_persisted_and_swallowed_witness :
    (∃ out,
      doInit (fillDefaults { privateKey := "k" }) "k" false
          (getInstance (fun k => k) "t0" { persisted := [] }
            { privateKey := "k" }).2.persisted "t1"
          { getNetwork := fun _ => .ok ()
            createBroker := fun _ => .ok ()
            addLedger := .ok () } = .ok out ∧
      out.depositAttempted = true ∧
      out.autoDepositCompleted = true ∧
      (getWalletState out.persisted "k").autoDepositCompleted = true) ∧
    doInit (fillDefaults { privateKey := "k" }) "k" false
        (getInstance (fun k => k) "t0" { persisted := [] }
          { privateKey := "k" }).2.persisted "t1"
        { getNetwork := fun _ => .ok ()
          createBroker := fun _ => .ok ()
          addLedger := .error "no gas" } =
      .ok { autoDepositCompleted := false
            persisted := (getInstance (fun k => k) "t0" { persisted := [] }
              { privateKey := "k" }).2.persisted
            depositAttempted := true } := by
  have h1 := autoDeposit_once_persisted_and_swallowed (fun k => k) "t0" "t1"
    { privateKey := "k" } []
    { getNetwork := fun _ => .ok ()
      createBroker := fun _ => .ok ()
      addLedger := .ok () } rfl rfl rfl
  have h2 := autoDeposit_once_persisted_and_swallowed (fun k => k) "t0" "t1"
    { privateKey := "k" } []
    { getNetwork := fun _ => .ok ()
      createBroker := fun _ => .ok ()
      addLedger := .error "no gas" } rfl rfl rfl
  exact ⟨h1.2.1 rfl rfl, h2.2.2 "no gas" rfl rfl⟩

/-- C4: on every non-success HTTP status, each of `chat`, `useDeepseek`
and `useLlama` raises `InsufficientFunds` for status 402 or 403, and for
every other non-success status a `Network` failure whose message carries
the status code. -/
theorem http_status_error_mapping (status : Nat) (data : RespData)
    (hbad : ¬ statusOk status) :
    ((status = 402 ∨ status = 403) →
      chatProcessResponse status data =
        .error (.zg (.insufficientFunds "Insufficient funds for AI inference request")) ∧
      deepseekProcessResponse status data =
        .error (.zg (.insufficientFunds "Insufficient funds for DeepSeek inference request")) ∧
      llamaProcessResponse status data =
        .error (.zg (.insufficientFunds "Insufficient funds for Llama inference request"))) ∧
    (¬ (status = 402 ∨ status = 403) →
      chatProcessResponse status data =
        .error (.zg (.network ("AI service error: HTTP " ++ toString status))) ∧
      deepseekProcessResponse status data =
        .error (.zg (.network ("DeepSeek service error: HTTP " ++ toString status))) ∧
      llamaProcessResponse status data =
        .error (.zg (.network ("Llama service error: HTTP " ++ toString status))) ∧
      strIncludes ("AI service error: HTTP " ++ toString status) (toString status) = true ∧
      strIncludes ("DeepSeek service error: HTTP " ++ toString status) (toString status) = true ∧
      strIncludes ("Llama service error: HTTP " ++ toString status) (toString status) = true) := by
  constructor
  · intro h
    refine ⟨?_, ?_, ?_⟩ <;>
      simp [chatProcessResponse, deepseekProcessResponse, llamaProcessResponse, hbad, h]
  · intro h
    refine ⟨?_, ?_, ?_, ?_, ?_, ?_⟩ <;>
      simp [chatProcessResponse, deepseekProcessResponse, llamaProcessResponse, hbad, h,
        strIncludes_append_right]

/-- C4 witness: status 402 surfaces the insufficient-funds failure and
status 500 the network failure carrying "500", in all three call paths. -/
theorem http_status_error_mapping_witness :
    (chatProcessResponse 402 {} =
      .error (.zg (.insufficientFunds "Insufficient funds for AI inference request"))) ∧
    (chatProcessResponse 500 {} =
      .error (.zg (.network "AI service error: HTTP 500"))) ∧
    (deepseekProcessResponse 500 {} =
      .error (.zg (.network "DeepSeek service error: HTTP 500"))) ∧
    strIncludes "AI service error: HTTP 500" "500" = true :=
  have h402 := http_status_error_mapping 402 {} (by decide)
  have h500 := http_status_error_mapping 500 {} (by decide)
  ⟨(h402.1 (Or.inl rfl)).1, (h500.2 (by decide)).1, (h500.2 (by decide)).2.1,
   (h500.2 (by decide)).2.2.2.1⟩

/-- C5: when the parsed body's `choices[0].message.content` is absent or
empty, `useDeepseek`/`useLlama` return, in order of preference, the
tool-call stand-in string when `tool_calls` is non-empty, else the raw
`reasoning_content` text when it is present (non-empty), else the fixed
apologetic fallback string; `chat` instead raises a Network failure
("Invalid response format") without substituting any fallback. -/
theorem helper_fallback_vs_chat_hard_failure (status : Nat) (data : RespData)
    (hok : statusOk status)
    (hempty : contentOf data = none ∨ contentOf data = some "") :
    (∀ l, toolCallsOf data = some l → 0 < l.length →
      deepseekProcessResponse status data = .ok (toolCallsMsg l.length) ∧
      llamaProcessResponse status data = .ok (toolCallsMsg l.length)) ∧
    (∀ r, (toolCallsOf data = none ∨ toolCallsOf data = some []) →
      reasoningOf data = some r → r ≠ "" →
      deepseekProcessResponse status data = .ok r ∧
      llamaProcessResponse status data = .ok r) ∧
    ((toolCallsOf data = none ∨ toolCallsOf data = some []) →
      (reasoningOf data = none ∨ reasoningOf data = some "") →
      deepseekProcessResponse status data = .ok noUsableContentMsg ∧
      llamaProcessResponse status data = .ok noUsableContentMsg) ∧
    chatProcessResponse status data =
      .error (.zg (.network "Invalid response format from AI service")) := by
  have hfalsy : strFalsy (contentOf data) = true := by
    rcases hempty with h | h <;> simp [strFalsy, h]
  have hdeep : deepseekProcessResponse status data = .ok (helperFallback data) := by
    simp [deepseekProcessResponse, hok, hfalsy]
  have hllam : llamaProcessResponse status data = .ok (helperFallback data) := by
    simp [llamaProcessResponse, hok, hfalsy]
  refine ⟨?_, ?_, ?_, ?_⟩
  · intro l hl hlen
    rw [hdeep, hllam]
    constructor <;> simp [helperFallback, hl, hlen]
  · intro r htools hr hne
    rw [hdeep, hllam]
    rcases htools with h | h <;>
      constructor <;> simp [helperFallback, h, hr, hne]
  · intro htools hreason
    rw [hdeep, hllam]
    rcases htools with h | h <;> rcases hreason with h2 | h2 <;>
      constructor <;> simp [helperFallback, h, h2]
  · simp [chatProcessResponse, hok, hfalsy]

/-- C5 witness: with an empty primary content, a body carrying two tool
calls yields the stand-in string, a reasoning-only body yields the raw
reasoning text, a contentless body yields the fixed fallback — all on the
helper path — while `chat` fails hard on each. -/
theorem helper_fallback_vs_chat_hard_failure_witness :
    deepseekProcessResponse 200
        { choices := [{ content := some "", tool_calls := some [(), ()] }] } =
      .ok "[Tool calls available: 2 tools]" ∧
    llamaProcessResponse 200
        { choices := [{ content := none, reasoning_content := some "thinking" }] } =
      .ok "thinking" ∧
    deepseekProcessResponse 200 { choices := [{ content := some "" }] } =
      .ok noUsableContentMsg ∧
    chatProcessResponse 200 { choices := [{ content := some "" }] } =
      .error (.zg (.network "Invalid response format from AI service")) :=
  have h1 := helper_fallback_vs_chat_hard_failure 200
    { choices := [{ content := some "", tool_calls := some [(), ()] }] }
    (by decide) (Or.inr rfl)
  have h2 := helper_fallback_vs_chat_hard_failure 200
    { choices := [{ content := none, reasoning_content := some "thinking" }] }
    (by decide) (Or.inl rfl)
  have h3 := helper_fallback_vs_chat_hard_failure 200
    { choices := [{ content := some "" }] } (by decide) (Or.inr rfl)
  ⟨(h1.1 [(), ()] rfl (by decide)).1,
   (h2.2.1 "thinking" (Or.inl rfl) rfl (by decide)).2,
   (h3.2.2.1 (Or.inl rfl) (Or.inl rfl)).1,
   h3.2.2.2⟩

/-- C6: a `chat` call whose provider discovery yields a missing or empty
service list on every retry attempt raises
`Network("No AI inference services available")`, and the
provider-acknowledgment, service-metadata and request-header steps are
never invoked (nor is the HTTP call issued). -/
theorem chat_no_services_short_circuits (cfg : Option ConfigR) (env : ChatEnv)
    (message : String) (opts : ChatOptions)
    (hmsg : message ≠ "")
    (hre : 1 ≤ codeEffRetries cfg opts)
    (hsvc : ∀ i, env.listService i = none ∨ env.listService i = some []) :
    (chatRun cfg env message opts).1 =
      .error (.network "No AI inference services available") ∧
    (chatRun cfg env message opts).2.listCalls = codeEffRetries cfg opts ∧
    (chatRun cfg env message opts).2.ackCalls = 0 ∧
    (chatRun cfg env message opts).2.metadataCalls = 0 ∧
    (chatRun cfg env message opts).2.headerCalls = 0 ∧
    (chatRun cfg env message opts).2.httpCalled = false := by
  have hop : ∀ i, svcFetchOp env.listService i =
      .error (.zg (.network "No AI inference services available")) := by
    intro i
    rcases hsvc i with h | h <;> simp [svcFetchOp, h]
  have hr := withRetry_all_fail (svcFetchOp env.listService)
    (fun _ => .zg (.network "No AI inference services available")) hop
    (codeEffRetries cfg opts) hre
  simp [chatRun, validateChatMessage, hmsg, hr, retryErr, chatCatch]

/-- C6 witness: with an always-empty provider list and default retry
resolution, `chat("Hello")` fails with the no-services network error
after exactly 3 discovery attempts and touches no later step. -/
theorem chat_no_services_short_circuits_witness :
    ("Hello" : String) ≠ "" ∧
    (chatRun none
        { listService := fun _ => some []
          acknowledge := fun _ _ => .ok ()
          getMetadata := fun _ _ => .ok ⟨"https://e", "m"⟩
          getRequestHeaders := fun _ _ _ => .ok ()
          http := .netFail "unreached" } "Hello" {}).1 =
      .error (.network "No AI inference services available") ∧
    (chatRun none
        { listService := fun _ => some []
          acknowledge := fun _ _ => .ok ()
          getMetadata := fun _ _ => .ok ⟨"https://e", "m"⟩
          getRequestHeaders := fun _ _ _ => .ok ()
          http := .netFail "unreached" } "Hello" {}).2.ackCalls = 0 ∧
    (chatRun none
        { listService := fun _ => some []
          acknowledge := fun _ _ => .ok ()
          getMetadata := fun _ _ => .ok ⟨"https://e", "m"⟩
          getRequestHeaders := fun _ _ _ => .ok ()
          http := .netFail "unreached" } "Hello" {}).2.metadataCalls = 0 :=
  have h := chat_no_services_short_circuits none
    { listService := fun _ => some []
      acknowledge := fun _ _ => .ok ()
      getMetadata := fun _ _ => .ok ⟨"https://e", "m"⟩
      getRequestHeaders := fun _ _ _ => .ok ()
      http := .netFail "unreached" } "Hello" {} (by decide) (by decide)
    (fun _ => Or.inr rfl)
  ⟨by decide, h.1, h.2.2.1, h.2.2.2.1⟩

/-- C7: `findModelProvider` scans the fetched services in list order and
returns the address of the first service whose declared model name
contains the requested name case-insensitively; a candidate whose
metadata fetch fails is skipped and the scan continues; if no candidate
matches, the "No provider found for model" network failure is raised. -/
theorem findModelProvider_first_match_skips_failures (cfg : Option ConfigR)
    (env : FindEnv) (modelName : String) (svcs : List ServiceEntry)
    (hre : 1 ≤ (cfg.map fun c => c.retries).getD 3)
    (hlist : env.listService 1 = some svcs) (hne : svcs ≠ []) :
    (∀ pre s post md, svcs = pre ++ s :: post →
      (∀ t ∈ pre, scanSkips env modelName t = true) →
      env.metaByAddr (addressOf s) = .ok md →
      strIncludes (jsToLower md.model) (jsToLower modelName) = true →
      findModelProvider cfg env modelName = .ok (addressOf s)) ∧
    ((∀ t ∈ svcs, scanSkips env modelName t = true) →
      findModelProvider cfg env modelName =
        .error (.zg (.network ("No provider found for model: " ++ modelName)))) := by
  have hop : svcFetchOp env.listService 1 = .ok svcs := by
    have : svcs.length ≠ 0 := by
      intro h; exact hne (List.length_eq_zero.mp h)
    simp [svcFetchOp, hlist, this]
  have hr := withRetry_first_ok (svcFetchOp env.listService) svcs hop
    ((cfg.map fun c => c.retries).getD 3) hre
  have hfind : findModelProvider cfg env modelName = findScan env modelName svcs := by
    simp [findModelProvider, hr]
  constructor
  · intro pre s post md hdecomp hpre hmd hinc
    rw [hfind, hdecomp, findScan_skip_block env modelName pre (s :: post) hpre,
      findScan, hmd]
    simp [hinc]
  · intro hall
    rw [hfind]
    have : findScan env modelName (svcs ++ []) = findScan env modelName [] :=
      findScan_skip_block env modelName svcs [] hall
    rw [List.append_nil] at this
    rw [this, findScan]

/-- C7 witness: the spec's example — searching "llama" over services
`[{model:"Llama-3-70B"}, {model:"DeepSeek-V2"}]` returns the first
service's address, and searching a name nobody serves raises the
no-provider failure. -/
theorem findModelProvider_first_match_skips_failures_witness :
    findModelProvider none
        { listService := fun _ =>
            some [ServiceEntry.strEntry "0xA", ServiceEntry.strEntry "0xB"]
          metaByAddr := fun a =>
            if a = "0xA" then .ok ⟨"https://a", "Llama-3-70B"⟩
            else .ok ⟨"https://b", "DeepSeek-V2"⟩ } "llama" = .ok "0xA" ∧
    findModelProvider none
        { listService := fun _ =>
            some [ServiceEntry.strEntry "0xA", ServiceEntry.strEntry "0xB"]
          metaByAddr := fun a =>
            if a = "0xA" then .ok ⟨"https://a", "Llama-3-70B"⟩
            else .ok ⟨"https://b", "DeepSeek-V2"⟩ } "gemma" =
      .error (.zg (.network "No provider found for model: gemma")) :=
  have h1 := findModelProvider_first_match_skips_failures none
    { listService := fun _ =>
        some [ServiceEntry.strEntry "0xA", ServiceEntry.strEntry "0xB"]
      metaByAddr := fun a =>
        if a = "0xA" then .ok ⟨"https://a", "Llama-3-70B"⟩
        else .ok ⟨"https://b", "DeepSeek-V2"⟩ } "llama"
    [ServiceEntry.strEntry "0xA", ServiceEntry.strEntry "0xB"]
    (by decide) rfl (by decide)
  have h2 := findModelProvider_first_match_skips_failures none
    { listService := fun _ =>
        some [ServiceEntry.strEntry "0xA", ServiceEntry.strEntry "0xB"]
      metaByAddr := fun a =>
        if a = "0xA" then .ok ⟨"https://a", "Llama-3-70B"⟩
        else .ok ⟨"https://b", "DeepSeek-V2"⟩ } "gemma"
    [ServiceEntry.strEntry "0xA", ServiceEntry.strEntry "0xB"]
    (by decide) rfl (by decide)
  ⟨h1.1 [] (ServiceEntry.strEntry "0xA") [ServiceEntry.strEntry "0xB"]
      ⟨"https://a", "Llama-3-70B"⟩ rfl (by simp) rfl (by decide),
   h2.2 (by
    intro t ht
    fin_cases ht <;> decide)⟩

/-- C8: in the HTTP phase of `chat`, `useDeepseek` and `useLlama`, the
cancellation signal fires exactly when the request exceeds the timeout
(`abort` outcome), in which case the surfaced failure is a `Network`
failure carrying the timeout message — recognizable as a timeout, unlike
every failure of a non-abort outcome; and the timeout timer is cleared on
every exit path (success, thrown failure, or abort), so it cannot fire
after the call has resolved. -/
theorem timeout_abort_and_timer_cleanup (timeout : Nat) (opts : ChatOptions)
    (outcome : HttpOutcome) :
    (TEv.clearT ∈ (chatHttpPhase outcome).2 ∧
     TEv.clearT ∈ (deepseekHttpPhase outcome).2 ∧
     TEv.clearT ∈ (llamaHttpPhase outcome).2) ∧
    (TEv.abortFired ∈ (chatHttpPhase outcome).2 ↔ outcome = .abort) ∧
    (outcome = .abort →
      (chatHttpPhase outcome).1 = .error .abortError ∧
      chatCatch timeout .abortError =
        .network ("Request timed out after " ++ toString timeout ++ "ms") ∧
      isTimeoutFailure (chatCatch timeout .abortError) = true ∧
      isTimeoutFailure (deepseekCatch opts .abortError) = true ∧
      isTimeoutFailure (llamaCatch opts .abortError) = true) ∧
    (∀ e, outcome ≠ .abort → (chatHttpPhase outcome).1 = .error e →
      isTimeoutFailure (chatCatch timeout e) = false) ∧
    (∀ e, outcome ≠ .abort → (deepseekHttpPhase outcome).1 = .error e →
      isTimeoutFailure (deepseekCatch opts e) = false) := by
  refine ⟨?_, ?_, ?_, ?_, ?_⟩
  · cases outcome <;> simp [chatHttpPhase, deepseekHttpPhase, llamaHttpPhase]
  · cases outcome <;> simp [chatHttpPhase]
  · intro h
    subst h
    refine ⟨rfl, rfl, ?_, ?_, ?_⟩ <;> rfl
  · intro e hne heq
    cases outcome with
    | abort => exact absurd rfl hne
    | netFail m =>
      simp only [chatHttpPhase] at heq
      cases heq
      rfl
    | ok status data =>
      simp only [chatHttpPhase] at heq
      unfold chatProcessResponse at heq
      split at heq
      · split at heq
        · cases heq; rfl
        · cases heq; rfl
      · dsimp only at heq
        split at heq
        · cases heq; rfl
        · cases heq
  · intro e hne heq
    cases outcome with
    | abort => exact absurd rfl hne
    | netFail m =>
      simp only [deepseekHttpPhase] at heq
      cases heq
      rfl
    | ok status data =>
      simp only [deepseekHttpPhase] at heq
      unfold deepseekProcessResponse at heq
      split at heq
      · split at heq
        · cases heq; rfl
        · cases heq; rfl
      · dsimp only at heq
        split at heq
        · cases heq
        · cases heq

/-- C8 witness: an aborted call with a 5000 ms effective timeout surfaces
the recognizable timeout network failure with the timer cleared, while a
plain HTTP 500 failure is not recognized as a timeout. -/
theorem timeout_abort_and_timer_cleanup_witness :
    TEv.clearT ∈ (chatHttpPhase .abort).2 ∧
    chatCatch 5000 .abortError = .network "Request timed out after 5000ms" ∧
    isTimeoutFailure (chatCatch 5000 .abortError) = true ∧
    isTimeoutFailure (chatCatch 5000 (.zg (.network "AI service error: HTTP 500"))) = false :=
  have ha := timeout_abort_and_timer_cleanup 5000 {} .abort
  have hb := timeout_abort_and_timer_cleanup 5000 {} (.ok 500 {})
  ⟨ha.1.1, (ha.2.2.1 rfl).2.1, (ha.2.2.1 rfl).2.2.1,
   hb.2.2.2.1 (.zg (.network "AI service error: HTTP 500")) (by decide) rfl⟩

/-- C9 counterexample: with a connection whose configured retry default
is 5 and no per-call option, the claimed precedence yields 5, but
`useDeepseek`/`useLlama` pass `options.retries || 3` = 3 to their
acknowledge/metadata/header steps — the connection-level default is never
consulted there. -/
theorem helper_retries_ignore_config_cex :
    deepseekStepRetries {} = 3 ∧
    llamaStepRetries {} = 3 ∧
    specResolve (none : Option Nat)
      (some (fillDefaults { privateKey := "k", retries := some 5 }).retries) 3 = 5 ∧
    (3 : Nat) ≠ 5 := by
  refine ⟨rfl, rfl, rfl, by decide⟩

/-- C9 amended: in `chat`, both the effective timeout and the effective
retry count follow the claimed precedence (per-call option, else
connection default, else 30000 ms / 3); in `useDeepseek`/`useLlama` the
timeout follows that precedence too, but the retry count passed to their
retried steps is the per-call option when supplied and non-zero, else the
hardcoded 3 — the connection-level default is ignored (and an explicit
`retries: 0` is treated as absent by the `||`). -/
theorem effective_timeout_retries_resolution (cfg : Option ConfigR)
    (opts : ChatOptions) :
    codeEffTimeout cfg opts = specResolve opts.timeout (cfg.map fun c => c.timeout) 30000 ∧
    codeEffRetries cfg opts = specResolve opts.retries (cfg.map fun c => c.retries) 3 ∧
    deepseekEffTimeout cfg opts =
      specResolve opts.timeout (cfg.map fun c => c.timeout) 30000 ∧
    llamaEffTimeout cfg opts =
      specResolve opts.timeout (cfg.map fun c => c.timeout) 30000 ∧
    (∀ n, opts.retries = some n → n ≠ 0 →
      deepseekStepRetries opts = n ∧ llamaStepRetries opts = n) ∧
    ((opts.retries = none ∨ opts.retries = some 0) →
      deepseekStepRetries opts = 3 ∧ llamaStepRetries opts = 3) := by
  refine ⟨rfl, rfl, rfl, rfl, ?_, ?_⟩
  · intro n hn hne
    constructor <;> simp [deepseekStepRetries, llamaStepRetries, jsOrNat, hn, hne]
  · intro h
    rcases h with h | h <;>
      constructor <;> simp [deepseekStepRetries, llamaStepRetries, jsOrNat, h]

/-- C9 amended witness: with a connection default of `{timeout := 7000,
retries := 5}` — a per-call `timeout` of 100 wins, an absent per-call
timeout falls back to 7000, and the helper step retries are 3 despite the
configured 5 but follow an explicit non-zero per-call option. -/
theorem effective_timeout_retries_resolution_witness :
    codeEffTimeout
        (some { privateKey := "k", rpcUrl := "u", autoDeposit := true,
                defaultModel := "m", timeout := 7000, retries := 5 })
        { timeout := some 100 } = 100 ∧
    codeEffTimeout
        (some { privateKey := "k", rpcUrl := "u", autoDeposit := true,
                defaultModel := "m", timeout := 7000, retries := 5 }) {} = 7000 ∧
    deepseekStepRetries {} = 3 ∧
    deepseekStepRetries { retries := some 9 } = 9 :=
  have h1 := effective_timeout_retries_resolution
    (some { privateKey := "k", rpcUrl := "u", autoDeposit := true,
            defaultModel := "m", timeout := 7000, retries := 5 })
    { timeout := some 100 }
  have h2 := effective_timeout_retries_resolution
    (some { privateKey := "k", rpcUrl := "u", autoDeposit := true,
            defaultModel := "m", timeout := 7000, retries := 5 }) {}
  have h3 := effective_timeout_retries_resolution none { retries := some 9 }
  ⟨h1.1.trans rfl, h2.1.trans rfl, (h2.2.2.2.2.2 (Or.inl rfl)).1,
   (h3.2.2.2.2.1 9 rfl (by decide)).1⟩

end OGKit
